import Mathlib

/-!
Shallow embedding of the Odoo XML-RPC client scripts of this repository
(`call-channel-105-fixed.py`, `clean-and-call-105.py`, `debug-webrtc.py`,
`quick-webrtc-fix.py`, `scripts/enhanced-clean-and-call-105.py`).

Remote endpoints are modelled as oracles: a value of type
`Except String r` stands for one remote round trip, `.error f` meaning the
underlying xmlrpc call raised an exception with message `f`, and `.ok v`
meaning it returned the value `v`.  Each client operation additionally
returns the list of requests it issued, so that the number and content of
network attempts is observable.
-/

namespace Spec2Proof

/-- Python-style structured values, as carried over XML-RPC: None, bool,
int, string, list, dict. -/
inductive Val where
  | vNone
  | vBool (b : Bool)
  | vInt (n : Int)
  | vStr (s : String)
  | vList (items : List Val)
  | vDict (entries : List (String × Val))

/-- Python truthiness of a `Val`, as used by `if members:` / `if channels:`
in the scripts. -/
def pyTruthy : Val → Bool
  | .vNone => false
  | .vBool b => b
  | .vInt n => n != 0
  | .vStr s => s != ""
  | .vList l => !l.isEmpty
  | .vDict l => !l.isEmpty

/-- Whether the `xmlrpc.client` marshaller accepts a value: the scripts
create their `ServerProxy` with the default `allow_none=False`, under which
marshalling `None` — at any depth — raises
`TypeError: cannot marshal None unless allow_none is enabled`; every other
value in this range marshals. -/
def Val.marshalable : Val → Bool
  | .vNone => false
  | .vBool _ => true
  | .vInt _ => true
  | .vStr _ => true
  | .vList [] => true
  | .vList (v :: t) => v.marshalable && (Val.vList t).marshalable
  | .vDict [] => true
  | .vDict ((_, v) :: t) => v.marshalable && (Val.vDict t).marshalable

/-- Python `d[k]` on a dict value: `some` the entry when `d` is a dict
containing key `k`, `none` when the subscript would raise
(KeyError / TypeError). -/
def dictGet (v : Val) (k : String) : Option Val :=
  match v with
  | .vDict entries => (entries.find? (fun e => e.1 == k)).map (fun e => e.2)
  | _ => none

/-- The `CONFIG` dictionary shared by the scripts (immutable credentials,
except that `OdooWebRTCTester.authenticate` mutates `password`). -/
structure Config where
  host : String
  port : Nat
  database : String
  username : String
  password : String
  api_key : String
deriving Repr, DecidableEq

/-- The possible values of the `self.uid` field: `pyNone` is the initial
`None` set in `__init__`, `pyFalse` the `False` the authentication endpoint
returns on rejected credentials, `uid n` an integer user id. -/
inductive PyUid where
  | pyNone
  | pyFalse
  | uid (n : Nat)
deriving Repr, DecidableEq

/-- Python truthiness of the stored `self.uid` value. -/
def PyUid.truthy : PyUid → Bool
  | .pyNone => false
  | .pyFalse => false
  | .uid n => n != 0

/-- The `self.uid` value as an XML-RPC argument (`call_model` passes
`self.uid` into the payload whatever it currently holds). -/
def PyUid.toVal : PyUid → Val
  | .pyNone => .vNone
  | .pyFalse => .vBool false
  | .uid n => .vInt n

/-- Whether the stored `self.uid` value survives xmlrpc marshalling: the
initial `None` does not (`allow_none=False`), a boolean or integer does. -/
def PyUid.marshalable : PyUid → Bool
  | .pyNone => false
  | .pyFalse => true
  | .uid _ => true

/-- Mutable client instance state: the config dictionary and the `self.uid`
field (these are the only instance fields besides the derived `self.url`,
which is a pure function of the config). -/
structure ClientState where
  config : Config
  uid : PyUid
deriving Repr, DecidableEq

/-- `__init__`: stores the config and sets `self.uid = None`. -/
def initState (c : Config) : ClientState := { config := c, uid := .pyNone }

/-- What the authentication endpoint's `common.authenticate` returns when it
does not raise: `False` for rejected credentials, or an integer user id. -/
inductive AuthResult where
  | rFalse
  | rUid (n : Nat)
deriving Repr, DecidableEq

/-- The value that gets assigned to `self.uid` from an authentication
return value. -/
def AuthResult.toPyUid : AuthResult → PyUid
  | .rFalse => .pyFalse
  | .rUid n => .uid n

/-- Truthiness of the assigned value, as tested by `if self.uid:`. -/
def AuthResult.truthy (r : AuthResult) : Bool := r.toPyUid.truthy

/-- Whether one authentication round trip counts as a success for the
script (`common.authenticate` neither raised nor returned a falsy value). -/
def authSucceeds : Except String AuthResult → Bool
  | .error _ => false
  | .ok r => r.truthy

/-- One request to the authentication endpoint:
`common.authenticate(database, username, secret, {})`. -/
structure AuthRequest where
  database : String
  username : String
  secret : String
deriving Repr, DecidableEq

/-- Result of running an `authenticate` method: the boolean the method
returns, the client state afterwards, the authentication requests issued,
and how many times `self.uid` was assigned during the call. -/
structure AuthOutcome where
  ok : Bool
  state : ClientState
  attempts : List AuthRequest
  uidWrites : Nat
deriving Repr

/-- `OdooCallInitiator.authenticate` (identical in
`call-channel-105-fixed.py`, `clean-and-call-105.py`,
`quick-webrtc-fix.py`): one `common.authenticate(database, username,
api_key, {})` round trip; the return value is assigned to `self.uid`; the
method returns `True` when that value is truthy, otherwise `False`; an
exception is caught and `False` returned with `self.uid` untouched. -/
def authenticate (st : ClientState) (resp : Except String AuthResult) : AuthOutcome :=
  let req : AuthRequest :=
    ⟨st.config.database, st.config.username, st.config.api_key⟩
  match resp with
  | .error _ => ⟨false, st, [req], 0⟩
  | .ok r => ⟨r.truthy, { st with uid := r.toPyUid }, [req], 1⟩

/-- Second half of `OdooWebRTCTester.authenticate` (`debug-webrtc.py`): the
API-key attempt, reached when the password attempt did not return a truthy
uid. On truthy success it also executes
`self.config['password'] = self.config['api_key']`. -/
def authDWsecond (ep : AuthRequest → Except String AuthResult)
    (st1 : ClientState) (w1 : Nat) (req1 : AuthRequest) : AuthOutcome :=
  let req2 : AuthRequest :=
    ⟨st1.config.database, st1.config.username, st1.config.api_key⟩
  match ep req2 with
  | .error _ => ⟨false, st1, [req1, req2], w1⟩
  | .ok r2 =>
    let st2 := { st1 with uid := r2.toPyUid }
    if r2.truthy then
      ⟨true, { st2 with config := { st2.config with password := st2.config.api_key } },
        [req1, req2], w1 + 1⟩
    else
      ⟨false, st2, [req1, req2], w1 + 1⟩

/-- `OdooWebRTCTester.authenticate` (`debug-webrtc.py`): first tries
password authentication; if that raises or returns a falsy uid it tries API
key authentication against the same endpoint.  Every successful return of
`common.authenticate` is assigned to `self.uid` before the truthiness test,
so a falsy first answer is stored and later overwritten. -/
def authenticateDW (st : ClientState)
    (ep : AuthRequest → Except String AuthResult) : AuthOutcome :=
  let req1 : AuthRequest :=
    ⟨st.config.database, st.config.username, st.config.password⟩
  match ep req1 with
  | .error _ => authDWsecond ep st 0 req1
  | .ok r1 =>
    let st1 := { st with uid := r1.toPyUid }
    if r1.truthy then ⟨true, st1, [req1], 1⟩
    else authDWsecond ep st1 1 req1

/-- One request to the invocation endpoint:
`models.execute_kw(database, uid, secret, model, method, args, kwargs)`,
fields in the positional order of the call. -/
structure Payload where
  database : String
  uid : PyUid
  secret : String
  model : String
  method : String
  args : List Val
  kwargs : List (String × Val)

/-- The payload built by `OdooCallInitiator.call_model` /
`QuickWebRTCFix.call_model` / `EnhancedOdooCallInitiator.call_model`: its
secret argument is `self.config['api_key']`. -/
def mkPayload (st : ClientState) (model method : String) (args : List Val)
    (kwargs : List (String × Val)) : Payload :=
  ⟨st.config.database, st.uid, st.config.api_key, model, method, args, kwargs⟩

/-- The payload built by `OdooWebRTCTester.call_model` (`debug-webrtc.py`):
its secret argument is `self.config['password']`. -/
def mkPayloadDW (st : ClientState) (model method : String) (args : List Val)
    (kwargs : List (String × Val)) : Payload :=
  ⟨st.config.database, st.uid, st.config.password, model, method, args, kwargs⟩

/-- Whether `execute_kw`'s parameter list for a payload marshals
client-side: the database, secret, model and method names are strings and
always marshal; the `uid`, the positional-argument list and the
named-argument dict must be free of `None`. -/
def Payload.marshalable (p : Payload) : Bool :=
  p.uid.marshalable && (Val.vList p.args).marshalable &&
    (Val.vDict p.kwargs).marshalable

/-- `OdooCallInitiator.call_model` (`call-channel-105-fixed.py` lines
48-59, identical in `clean-and-call-105.py` and `quick-webrtc-fix.py`, and
— up to an extra debug print before re-raising — in
`EnhancedOdooCallInitiator.call_model`): builds a fresh `execute_kw`
payload from the config, `self.uid` and the arguments.  `xmlrpc.client`
marshals the parameters before any transport activity and the scripts'
`ServerProxy` keeps the default `allow_none=False`, so a parameter list
containing `None` — in particular `self.uid = None` before a successful
`authenticate` — raises `TypeError` client-side and no network request is
issued.  Otherwise exactly one request is issued and the endpoint's answer
returned unchanged (a fault propagates with its message intact); there is
no guard on `self.uid` other than this marshalling behaviour. -/
def call_model (st : ClientState) (ep : Payload → Except String Val)
    (model method : String) (args : List Val)
    (kwargs : List (String × Val)) : Except String Val × List Payload :=
  let p := mkPayload st model method args kwargs
  if p.marshalable then (ep p, [p])
  else (.error "cannot marshal None unless allow_none is enabled", [])

/-- `OdooWebRTCTester.call_model` (`debug-webrtc.py` lines 71-85): the
secret sent is `self.config['password']`; the `try/except ... raise e`
re-raises the caught exception unchanged.  The client-side marshalling of
`None` is modelled on `call_model`; this variant is stated at marshalable
arguments — its uses below all run after a successful `authenticate`, with
an integer handle and `None`-free arguments. -/
def call_modelDW (st : ClientState) (ep : Payload → Except String Val)
    (model method : String) (args : List Val)
    (kwargs : List (String × Val)) : Except String Val × List Payload :=
  let p := mkPayloadDW st model method args kwargs
  (ep p, [p])

/-- State-threaded view of `call_model`: the method assigns to no instance
field, so the state after the call is the state before it. -/
def call_modelSt (st : ClientState) (ep : Payload → Except String Val)
    (model method : String) (args : List Val)
    (kwargs : List (String × Val)) :
    (Except String Val × List Payload) × ClientState :=
  (call_model st ep model method args kwargs, st)

/-- The search domain
`[['channel_id', '=', channel_id], ['partner_id', '=', partner_id]]`. -/
def memberDomain (channel_id partner_id : Int) : Val :=
  .vList [ .vList [.vStr "channel_id", .vStr "=", .vInt channel_id],
           .vList [.vStr "partner_id", .vStr "=", .vInt partner_id] ]

/-- The `search_read` request issued by `ensure_channel_member`. -/
def memberSearchPayload (st : ClientState) (channel_id partner_id : Int) : Payload :=
  mkPayload st "discuss.channel.member" "search_read"
    [memberDomain channel_id partner_id]
    [("fields", .vList [.vStr "id"])]

/-- The `create` request issued by `ensure_channel_member` when the search
came back empty. -/
def memberCreatePayload (st : ClientState) (channel_id partner_id : Int) : Payload :=
  mkPayload st "discuss.channel.member" "create"
    [ .vDict [("channel_id", .vInt channel_id), ("partner_id", .vInt partner_id)] ]
    []

/-- `OdooCallInitiator.ensure_channel_member` (`call-channel-105-fixed.py`
lines 74-98, identical in `clean-and-call-105.py`): `search_read` the
membership model by `channel_id` and `partner_id`; if the result is truthy
take `members[0]['id']`, else `create` a membership and take the returned
id; any exception is caught and `None` returned. -/
def ensure_channel_member (st : ClientState)
    (ep : Payload → Except String Val) (channel_id partner_id : Int) :
    Option Val × List Payload :=
  let searchP := memberSearchPayload st channel_id partner_id
  match ep searchP with
  | .error _ => (none, [searchP])
  | .ok members =>
    if pyTruthy members then
      match members with
      | .vList (m :: _) =>
        match dictGet m "id" with
        | some mid => (some mid, [searchP])
        | none => (none, [searchP])
      | _ => (none, [searchP])
    else
      let createP := memberCreatePayload st channel_id partner_id
      match ep createP with
      | .error _ => (none, [searchP, createP])
      | .ok mid => (some mid, [searchP, createP])

/-- The `search_domain` built by `cleanup_existing_sessions`: empty, or a
single `channel_id` clause when a channel id was given. -/
def cleanupDomain : Option Int → Val
  | none => .vList []
  | some cid => .vList [ .vList [.vStr "channel_id", .vStr "=", .vInt cid] ]

/-- `OdooCallInitiator.cleanup_existing_sessions` (`clean-and-call-105.py`
lines 61-86): searches `discuss.channel.rtc.session`, unlinks the found
ids when the result is truthy, and returns `True` on every path — the
`except` clause also returns `True` ("Continue anyway"). -/
def cleanup_existing_sessions (st : ClientState)
    (ep : Payload → Except String Val) (channel_id : Option Int) :
    Bool × List Payload :=
  let searchP :=
    mkPayload st "discuss.channel.rtc.session" "search" [cleanupDomain channel_id] []
  match ep searchP with
  | .error _ => (true, [searchP])
  | .ok sessions =>
    if pyTruthy sessions then
      match sessions with
      | .vList _ | .vStr _ | .vDict _ =>
        let unlinkP :=
          mkPayload st "discuss.channel.rtc.session" "unlink" [sessions] []
        match ep unlinkP with
        | .error _ => (true, [searchP, unlinkP])
        | .ok _ => (true, [searchP, unlinkP])
      | _ => (true, [searchP])
    else (true, [searchP])

/-- The four method names probed by `test_channel_methods`. -/
def methodsToTest : List String :=
  ["rtc_join_call", "rtc_leave_call", "mobile_start_webrtc_call",
   "mobile_answer_webrtc_call"]

/-- Whether `pat` occurs as a contiguous run inside `s` (Python's
`pat in s` on strings, on the underlying character lists). -/
def listContains (pat : List Char) : List Char → Bool
  | [] => pat.isPrefixOf []
  | c :: t => pat.isPrefixOf (c :: t) || listContains pat t

/-- Whether the string "does not exist" occurs in an exception message, as
tested by `if 'does not exist' in str(e):`. -/
def containsDoesNotExist (e : String) : Bool :=
  listContains "does not exist".toList e.toList

/-- Classification of one probe attempt in `test_channel_methods`: a
successful call, or a failure whose message does not contain
"does not exist", classifies the method as existing. -/
def classifyExists (resp : Except String Val) : Bool :=
  match resp with
  | .ok _ => true
  | .error e => !containsDoesNotExist e

/-- The initial `discuss.channel` search issued by `test_channel_methods`
(through `OdooWebRTCTester.call_model`, so with the password secret). -/
def channelSearchPayload (st : ClientState) : Payload :=
  mkPayloadDW st "discuss.channel" "search_read" [.vList []]
    [("fields", .vList [.vStr "id", .vStr "name", .vStr "channel_type"]),
     ("limit", .vInt 1)]

/-- One probe request of `test_channel_methods`:
`self.call_model('discuss.channel', method, [channel['id']])`. -/
def probePayload (st : ClientState) (chid : Val) (method : String) : Payload :=
  mkPayloadDW st "discuss.channel" method [chid] []

/-- `OdooWebRTCTester.test_channel_methods` (`debug-webrtc.py` lines
99-143): fetch one channel; fail (`False`) when none is found, the fetch
raises, or the channel record lacks the `name`/`id` keys used before the
probes; otherwise probe the four candidate method names and return
`any(method_results.values())`. -/
def test_channel_methods (st : ClientState)
    (ep : Payload → Except String Val) : Bool :=
  match ep (channelSearchPayload st) with
  | .error _ => false
  | .ok channels =>
    if pyTruthy channels then
      match channels with
      | .vList (ch :: _) =>
        match dictGet ch "name", dictGet ch "id" with
        | some _, some chid =>
          (methodsToTest.map
            (fun m => classifyExists (ep (probePayload st chid m)))).any id
        | _, _ => false
      | _ => false
    else false

/-- The `notification_data` dict built by `send_call_notification`, entries
in the order of the Python dict literal. -/
def notificationData (channel_id session_id partner_id : Int)
    (caller_name : Val) (call_type : String) : Val :=
  .vDict [("id", .vInt session_id), ("channel_id", .vInt channel_id),
          ("partner_id", .vInt partner_id),
          ("is_camera_on", .vBool (call_type == "video")),
          ("is_muted", .vBool false), ("is_screen_sharing_on", .vBool false),
          ("caller_name", caller_name), ("action", .vStr "join"),
          ("call_type", .vStr call_type)]

/-- The `notifications` list passed to the `_sendmany` / `sendmany`
attempts. -/
def busNotifications (channel_id : Int) (nd : Val) : Val :=
  .vList [ .vList [ .vStr ("discuss.channel_" ++ toString channel_id),
    .vDict [("type", .vStr "discuss.channel.rtc.session/insert"),
            ("payload", nd)] ] ]

/-- `OdooCallInitiator.send_call_notification` (`call-channel-105-fixed.py`
lines 123-189): read the caller's name, then try `bus.bus._sendmany`,
falling back to `bus.bus.sendmany`, falling back to `bus.bus.create`;
return `True` on the first attempt that does not raise, `False` when all
three fail or the initial read fails. -/
def send_call_notification (st : ClientState)
    (ep : Payload → Except String Val)
    (channel_id session_id partner_id : Int) (call_type : String) :
    Bool × List Payload :=
  let readP := mkPayload st "res.users" "read" [st.uid.toVal]
    [("fields", .vList [.vStr "name", .vStr "email"])]
  match ep readP with
  | .error _ => (false, [readP])
  | .ok user_data =>
    let caller : Option Val :=
      if pyTruthy user_data then
        match user_data with
        | .vList (u :: _) => dictGet u "name"
        | _ => none
      else some (.vStr "CLI Caller")
    match caller with
    | none => (false, [readP])
    | some caller_name =>
      let nd := notificationData channel_id session_id partner_id caller_name call_type
      let notifications := busNotifications channel_id nd
      let p1 := mkPayload st "bus.bus" "_sendmany" [notifications] []
      match ep p1 with
      | .ok _ => (true, [readP, p1])
      | .error _ =>
        let p2 := mkPayload st "bus.bus" "sendmany" [notifications] []
        match ep p2 with
        | .ok _ => (true, [readP, p1, p2])
        | .error _ =>
          let bus_message : Val :=
            .vDict [("channel", .vStr ("discuss.channel_" ++ toString channel_id)),
                    ("message", nd)]
          let p3 := mkPayload st "bus.bus" "create" [bus_message] []
          match ep p3 with
          | .ok _ => (true, [readP, p1, p2, p3])
          | .error _ => (false, [readP, p1, p2, p3])

/-! Concrete configurations used by witnesses and counterexamples. -/

/-- A concrete configuration for witnesses and counterexamples. -/
def cfg0 : Config :=
  { host := "odoo.example.com", port := 443, database := "db17",
    username := "alice@example.com", password := "pw", api_key := "key" }

/-- A concrete authenticated client (handle 5), for witnesses. -/
def stAuthed : ClientState := { config := cfg0, uid := .uid 5 }

/-- An endpoint that always raises, for the C4 witness. -/
def epFault : Payload → Except String Val :=
  fun _ => .error "Access Denied to res.users.read()"

/-- An endpoint for the C7 witness: the membership search finds nothing and
the create returns id 9. -/
def epMember : Payload → Except String Val :=
  fun p => if p.method = "search_read" then .ok (.vList []) else .ok (.vInt 9)

/-- An endpoint for the C10 witness: the channel search returns channel 105
named "General"; `rtc_join_call` fails with an argument error (so it is
classified as existing), and the other probes fail with "does not exist". -/
def epProbe : Payload → Except String Val :=
  fun p =>
    if p.method = "search_read" then
      .ok (.vList [.vDict [("id", .vInt 105), ("name", .vStr "General"),
                           ("channel_type", .vStr "channel")]])
    else if p.method = "rtc_join_call" then
      .error "rtc_join_call() missing required argument"
    else
      .error ("'" ++ p.method ++ "' does not exist on discuss.channel")

/-- An endpoint that accepts any payload, for witnesses. -/
def epEcho : Payload → Except String Val := fun _ => .ok (.vBool true)

/-- An authentication endpoint for the C5 counterexample: the password
attempt returns no handle, the API-key attempt returns uid 42. -/
def epC5 : AuthRequest → Except String AuthResult :=
  fun req => if req.secret = "pw" then .ok .rFalse else .ok (.rUid 42)

/-- An authentication endpoint where the password attempt succeeds, for the
C5 witness. -/
def epPwOk : AuthRequest → Except String AuthResult :=
  fun _ => .ok (.rUid 7)

/-- An authentication endpoint for the C6 counterexample: the password
attempt raises a transport fault, the API-key attempt returns uid 7. -/
def epC6 : AuthRequest → Except String AuthResult :=
  fun req => if req.secret = "pw" then .error "connection reset" else .ok (.rUid 7)

/-! ## Claims -/

/-- C3: for every client whose payload marshals (in particular every
authenticated client, whose handle is an integer), and every model name,
method name, positional arguments and named arguments, `call_model` issues
exactly one request whose payload is the configured database name, the
stored session handle, the secret, the model name, the method name, the
positional arguments and the named arguments, in that structure and order,
and the endpoint's result is returned unchanged. -/
theorem call_model_payload_exact (st : ClientState)
    (ep : Payload → Except String Val) (model method : String)
    (args : List Val) (kwargs : List (String × Val))
    (h : (mkPayload st model method args kwargs).marshalable = true) :
    call_model st ep model method args kwargs =
      (ep ⟨st.config.database, st.uid, st.config.api_key,
            model, method, args, kwargs⟩,
       [⟨st.config.database, st.uid, st.config.api_key,
            model, method, args, kwargs⟩]) := by
  unfold call_model
  dsimp only
  rw [if_pos h]
  rfl

/-- Witness for C3 at the spec's own example invocation
`invoke("modelX", "methodY", [1,2], {"k": "v"})` on an authenticated
client. -/
theorem call_model_payload_exact_witness :
    call_model stAuthed epEcho "modelX" "methodY"
        [.vInt 1, .vInt 2] [("k", .vStr "v")] =
      (epEcho ⟨cfg0.database, .uid 5, cfg0.api_key, "modelX", "methodY",
          [.vInt 1, .vInt 2], [("k", .vStr "v")]⟩,
       [⟨cfg0.database, .uid 5, cfg0.api_key, "modelX", "methodY",
          [.vInt 1, .vInt 2], [("k", .vStr "v")]⟩]) :=
  call_model_payload_exact stAuthed epEcho "modelX" "methodY"
    [.vInt 1, .vInt 2] [("k", .vStr "v")]
    (by simp [stAuthed, mkPayload, Payload.marshalable, PyUid.marshalable,
              Val.marshalable])

/-- C8: `call_model` writes no client state: the state after a call is the
state before it, and a second sequential call produces exactly the payload
and result it would produce in isolation, whatever the first call was. -/
theorem call_model_no_cross_call_leakage (st : ClientState)
    (ep : Payload → Except String Val) (m1 me1 m2 me2 : String)
    (a1 a2 : List Val) (k1 k2 : List (String × Val)) :
    (call_modelSt st ep m1 me1 a1 k1).2 = st ∧
    call_modelSt (call_modelSt st ep m1 me1 a1 k1).2 ep m2 me2 a2 k2 =
      call_modelSt st ep m2 me2 a2 k2 :=
  ⟨rfl, rfl⟩

/-- C9: `cleanup_existing_sessions` returns `True` on every outcome — no
sessions found, sessions found and unlinked, or an exception raised by
either remote call (swallowed by the `except` clause). -/
theorem cleanup_always_true (st : ClientState)
    (ep : Payload → Except String Val) (channel_id : Option Int) :
    (cleanup_existing_sessions st ep channel_id).1 = true := by
  unfold cleanup_existing_sessions
  dsimp only
  repeat' split
  all_goals rfl

/-- C4: when the invocation endpoint raises a fault, `call_model` surfaces
the failure to the caller with the fault message character-for-character
unchanged — both in `OdooWebRTCTester.call_model` (whose `except` clause
re-raises the caught exception) and in
`EnhancedOdooCallInitiator.call_model` (which prints and re-raises). -/
theorem call_model_fault_roundtrip (st : ClientState)
    (epDW ep : Payload → Except String Val) (model method : String)
    (args : List Val) (kwargs : List (String × Val)) (f g : String)
    (hm : (mkPayload st model method args kwargs).marshalable = true)
    (hDW : epDW (mkPayloadDW st model method args kwargs) = .error f)
    (hE : ep (mkPayload st model method args kwargs) = .error g) :
    (call_modelDW st epDW model method args kwargs).1 = .error f ∧
    (call_model st ep model method args kwargs).1 = .error g := by
  refine ⟨hDW, ?_⟩
  unfold call_model
  dsimp only
  rw [if_pos hm]
  exact hE

/-- Witness for C4 at a concrete authenticated client and fault message. -/
theorem call_model_fault_roundtrip_witness :
    (call_modelDW stAuthed epFault "res.users" "read" [] []).1 =
      .error "Access Denied to res.users.read()" ∧
    (call_model stAuthed epFault "res.users" "read" [] []).1 =
      .error "Access Denied to res.users.read()" :=
  call_model_fault_roundtrip stAuthed epFault epFault
    "res.users" "read" [] [] _ _
    (by simp [stAuthed, mkPayload, Payload.marshalable, PyUid.marshalable,
              Val.marshalable])
    rfl rfl

/-- C7: `ensure_channel_member` searches the membership model by exactly
the `channel_id` and `partner_id` key fields; when the search finds a
record it returns the first record's id and issues no create, and when the
search comes back empty it issues exactly one create and returns its
result. -/
theorem ensure_channel_member_create_iff_absent (st : ClientState)
    (ep : Payload → Except String Val) (channel_id partner_id : Int)
    (ms : List Val)
    (h : ep (memberSearchPayload st channel_id partner_id) = .ok (.vList ms)) :
    (ms = [] →
      ensure_channel_member st ep channel_id partner_id =
        ((ep (memberCreatePayload st channel_id partner_id)).toOption,
         [memberSearchPayload st channel_id partner_id,
          memberCreatePayload st channel_id partner_id])) ∧
    (∀ m rest mid, ms = m :: rest → dictGet m "id" = some mid →
      ensure_channel_member st ep channel_id partner_id =
        (some mid, [memberSearchPayload st channel_id partner_id])) := by
  constructor
  · rintro rfl
    unfold ensure_channel_member
    dsimp only
    rw [h]
    dsimp [pyTruthy]
    cases hc : ep (memberCreatePayload st channel_id partner_id) <;>
      simp [Except.toOption, hc]
  · rintro m rest mid rfl hid
    unfold ensure_channel_member
    dsimp only
    rw [h]
    dsimp [pyTruthy]
    rw [hid]

/-- Witness for C7 at a concrete client, channel 105 and partner 7: the
search is empty, so a create is issued and its id returned. -/
theorem ensure_channel_member_witness :
    ensure_channel_member (initState cfg0) epMember 105 7 =
      (some (.vInt 9),
       [memberSearchPayload (initState cfg0) 105 7,
        memberCreatePayload (initState cfg0) 105 7]) := by
  have h := (ensure_channel_member_create_iff_absent (initState cfg0)
    epMember 105 7 [] rfl).1 rfl
  simpa [epMember, memberCreatePayload, mkPayload, Except.toOption] using h

/-- C10: when the channel fetch of `test_channel_methods` returns a channel
with `name` and `id` keys, a probed method is classified as existing
exactly when its invocation either succeeds or fails with a message not
containing "does not exist", and the probe reports success exactly when at
least one of the four probed method names is classified as existing. -/
theorem test_channel_methods_spec (st : ClientState)
    (ep : Payload → Except String Val) (ch : Val) (rest : List Val)
    (nm chid : Val)
    (h : ep (channelSearchPayload st) = .ok (.vList (ch :: rest)))
    (hn : dictGet ch "name" = some nm) (hi : dictGet ch "id" = some chid) :
    (test_channel_methods st ep = true ↔
      ∃ m ∈ methodsToTest,
        classifyExists (ep (probePayload st chid m)) = true) ∧
    (∀ e, classifyExists (.error e) = !containsDoesNotExist e) ∧
    (∀ v, classifyExists (.ok v) = true) := by
  refine ⟨?_, fun e => rfl, fun v => rfl⟩
  unfold test_channel_methods
  rw [h]
  dsimp [pyTruthy]
  rw [hn, hi]
  simp [List.any_eq_true]

/-- Witness for C10 at a concrete endpoint where exactly one of the four
probed methods is classified as existing: the probe reports success. -/
theorem test_channel_methods_witness :
    test_channel_methods (initState cfg0) epProbe = true := by
  have h := (test_channel_methods_spec (initState cfg0) epProbe
    (.vDict [("id", .vInt 105), ("name", .vStr "General"),
             ("channel_type", .vStr "channel")]) []
    (.vStr "General") (.vInt 105) rfl rfl rfl).1
  exact h.mpr ⟨"rtc_join_call", by simp [methodsToTest], by decide⟩

/-- C1 counterexample: with the stored handle at its initial null value,
credentials the endpoint rejects by returning no handle (`False`) make
`authenticate` fail — but the stored field is overwritten with that falsy
return, so it is not the same after the failed call as before it. -/
theorem auth_reject_stores_false :
    authSucceeds (.ok .rFalse) = false ∧
    (authenticate (initState cfg0) (.ok .rFalse)).ok = false ∧
    (authenticate (initState cfg0) (.ok .rFalse)).state.uid ≠
      (initState cfg0).uid := by decide

/-- C1 amended: for rejected credentials `authenticate` reports failure and
no truthy handle results; after a transport fault the whole state is
unchanged, but when the endpoint returns a falsy value the `uid` field is
overwritten with it. -/
theorem authenticate_rejected (st : ClientState)
    (resp : Except String AuthResult) (h : authSucceeds resp = false) :
    (authenticate st resp).ok = false ∧
    (∀ f, resp = .error f → (authenticate st resp).state = st) ∧
    (∀ r, resp = .ok r →
      (authenticate st resp).state.uid = r.toPyUid ∧ r.truthy = false) := by
  cases resp with
  | error f =>
    refine ⟨rfl, fun _ _ => rfl, ?_⟩
    intro r hr
    simp at hr
  | ok r =>
    refine ⟨h, ?_, ?_⟩
    · intro f hf
      simp at hf
    · intro r' hr
      injection hr with hr
      subst hr
      exact ⟨rfl, h⟩

/-- Witness for the amended C1 at a concrete rejected response. -/
theorem authenticate_rejected_witness :
    (authenticate (initState cfg0) (.ok .rFalse)).ok = false ∧
    (authenticate (initState cfg0) (.ok .rFalse)).state.uid = PyUid.pyFalse := by
  refine ⟨(authenticate_rejected (initState cfg0) (.ok .rFalse) rfl).1, ?_⟩
  exact ((authenticate_rejected (initState cfg0) (.ok .rFalse) rfl).2.2 _ rfl).1

/-- C2: on a client on which `authenticate` has not yet succeeded (the
stored handle is still the initial `None`), every `call_model` call fails
without issuing any network request: `xmlrpc.client` raises `TypeError`
while marshalling the `None` uid, before any transport activity, whatever
the endpoint would have answered. -/
theorem invoke_before_auth_no_request (st : ClientState)
    (ep : Payload → Except String Val) (model method : String)
    (args : List Val) (kwargs : List (String × Val))
    (h : st.uid = PyUid.pyNone) :
    (call_model st ep model method args kwargs).2 = [] ∧
    (call_model st ep model method args kwargs).1 =
      .error "cannot marshal None unless allow_none is enabled" := by
  have hm : (mkPayload st model method args kwargs).marshalable = false := by
    simp [mkPayload, Payload.marshalable, h, PyUid.marshalable]
  unfold call_model
  dsimp only
  rw [if_neg]
  · exact ⟨rfl, rfl⟩
  · simp [hm]

/-- Witness for C2 on a fresh client: even against an endpoint that would
accept anything, no request is issued and the call fails client-side. -/
theorem invoke_before_auth_no_request_witness :
    (call_model (initState cfg0) epEcho "res.partner" "search" [] []).2 = [] ∧
    (call_model (initState cfg0) epEcho "res.partner" "search" [] []).1 =
      .error "cannot marshal None unless allow_none is enabled" :=
  invoke_before_auth_no_request (initState cfg0) epEcho "res.partner" "search" [] [] rfl

/-- Helper: the API-key fallback of `OdooWebRTCTester.authenticate` writes
`self.uid` at most once more, and when it reports success the resulting
handle is truthy. -/
theorem authDWsecond_spec (ep : AuthRequest → Except String AuthResult)
    (st1 : ClientState) (w1 : Nat) (req1 : AuthRequest) :
    (authDWsecond ep st1 w1 req1).uidWrites ≤ w1 + 1 ∧
    ((authDWsecond ep st1 w1 req1).ok = true →
      ((authDWsecond ep st1 w1 req1).state.uid).truthy = true) ∧
    (authDWsecond ep st1 w1 req1).attempts.length = 2 := by
  unfold authDWsecond
  dsimp only
  split
  · exact ⟨Nat.le_succ w1, by simp, rfl⟩
  next r2 =>
    split
    next htr => exact ⟨Nat.le_refl _, fun _ => htr, rfl⟩
    next => exact ⟨Nat.le_refl _, by simp, rfl⟩

/-- Helper: over one whole `OdooWebRTCTester.authenticate` call, `self.uid`
is assigned at most twice, a reported success leaves a truthy handle, and
the number of remote attempts is one when the first (password) attempt
returns a truthy uid and two otherwise. -/
theorem authenticateDW_spec (st : ClientState)
    (ep : AuthRequest → Except String AuthResult) :
    (authenticateDW st ep).uidWrites ≤ 2 ∧
    ((authenticateDW st ep).ok = true →
      ((authenticateDW st ep).state.uid).truthy = true) ∧
    (authenticateDW st ep).attempts.length =
      (if authSucceeds
          (ep ⟨st.config.database, st.config.username, st.config.password⟩)
        then 1 else 2) := by
  unfold authenticateDW
  dsimp only
  split
  next f hf =>
    have h := authDWsecond_spec ep st 0
      ⟨st.config.database, st.config.username, st.config.password⟩
    rw [hf]
    exact ⟨Nat.le_trans h.1 (by omega), h.2.1, by simpa [authSucceeds] using h.2.2⟩
  next r1 hr =>
    rw [hr]
    split
    next htr =>
      exact ⟨by simp, fun _ => htr, by simp [authSucceeds, htr]⟩
    next htr =>
      have h := authDWsecond_spec ep { st with uid := r1.toPyUid } 1
        ⟨st.config.database, st.config.username, st.config.password⟩
      refine ⟨h.1, h.2.1, ?_⟩
      rw [h.2.2]
      simp [authSucceeds, htr]

/-- C5 counterexample: one successful `OdooWebRTCTester.authenticate` call
writes the handle field twice (the rejected password attempt stores `False`
before the API-key attempt stores 42) and also writes a second client
field, overwriting the stored password with the API key. -/
theorem handle_written_twice :
    (authenticateDW (initState cfg0) epC5).ok = true ∧
    (authenticateDW (initState cfg0) epC5).uidWrites = 2 ∧
    (authenticateDW (initState cfg0) epC5).state.config.password ≠
      cfg0.password := by decide

/-- C5 amended: after a successful `OdooWebRTCTester.authenticate` the
final handle is truthy, subsequent `call_model` calls transmit exactly that
stored handle and write nothing; but within the authenticate call the
handle field may be assigned up to twice, and a key-based success also
overwrites the stored password field. -/
theorem handle_stable_after_auth (st : ClientState)
    (epA : AuthRequest → Except String AuthResult)
    (ep : Payload → Except String Val) (model method : String)
    (args : List Val) (kwargs : List (String × Val))
    (h : (authenticateDW st epA).ok = true) :
    ((authenticateDW st epA).state.uid).truthy = true ∧
    (authenticateDW st epA).uidWrites ≤ 2 ∧
    call_modelDW (authenticateDW st epA).state ep model method args kwargs =
      (ep (mkPayloadDW (authenticateDW st epA).state model method args kwargs),
       [mkPayloadDW (authenticateDW st epA).state model method args kwargs]) ∧
    (mkPayloadDW (authenticateDW st epA).state model method args kwargs).uid =
      (authenticateDW st epA).state.uid :=
  ⟨(authenticateDW_spec st epA).2.1 h, (authenticateDW_spec st epA).1, rfl, rfl⟩

/-- Witness for the amended C5 at a concrete successful authentication. -/
theorem handle_stable_after_auth_witness :
    ((authenticateDW (initState cfg0) epPwOk).state.uid).truthy = true ∧
    (authenticateDW (initState cfg0) epPwOk).uidWrites ≤ 2 ∧
    call_modelDW (authenticateDW (initState cfg0) epPwOk).state epEcho
        "res.users" "read" [] [] =
      (epEcho (mkPayloadDW (authenticateDW (initState cfg0) epPwOk).state
          "res.users" "read" [] []),
       [mkPayloadDW (authenticateDW (initState cfg0) epPwOk).state
          "res.users" "read" [] []]) ∧
    (mkPayloadDW (authenticateDW (initState cfg0) epPwOk).state
        "res.users" "read" [] []).uid =
      (authenticateDW (initState cfg0) epPwOk).state.uid :=
  handle_stable_after_auth (initState cfg0) epPwOk epEcho
    "res.users" "read" [] [] rfl

/-- C6 counterexample: one `OdooWebRTCTester.authenticate` call whose first
attempt fails makes a second remote attempt with an alternate credential
(the API key) within the same call — not exactly one remote attempt. -/
theorem second_attempt_same_call :
    (authenticateDW (initState cfg0) epC6).attempts =
      [⟨cfg0.database, cfg0.username, "pw"⟩,
       ⟨cfg0.database, cfg0.username, "key"⟩] ∧
    (authenticateDW (initState cfg0) epC6).attempts.length ≠ 1 := by decide

/-- C6 amended: `OdooCallInitiator.authenticate` makes exactly one remote
attempt per call; `call_model` makes exactly one remote attempt when its
payload marshals and zero when client-side marshalling rejects it, never
more, with no retry; `OdooWebRTCTester.authenticate` makes one attempt when
the password attempt returns a truthy uid and otherwise a second attempt
with the API-key credential; `send_call_notification` makes at most four
remote attempts (one user read plus up to three alternate bus method
names); no individual attempt is ever repeated against the same method and
credentials. -/
theorem single_attempt_per_call (st : ClientState)
    (resp : Except String AuthResult)
    (epA : AuthRequest → Except String AuthResult)
    (ep ep2 : Payload → Except String Val) (model method : String)
    (args : List Val) (kwargs : List (String × Val))
    (cid sid pid : Int) (ct : String) :
    (authenticate st resp).attempts.length = 1 ∧
    (call_model st ep2 model method args kwargs).2.length =
      (if (mkPayload st model method args kwargs).marshalable then 1 else 0) ∧
    (authenticateDW st epA).attempts.length =
      (if authSucceeds
          (epA ⟨st.config.database, st.config.username, st.config.password⟩)
        then 1 else 2) ∧
    (send_call_notification st ep cid sid pid ct).2.length ≤ 4 := by
  refine ⟨?_, ?_, (authenticateDW_spec st epA).2.2, ?_⟩
  · cases resp <;> rfl
  · unfold call_model
    dsimp only
    split
    next hm => simp [hm]
    next hm => simp [hm]
  · unfold send_call_notification
    dsimp only
    repeat' split
    all_goals simp

end Spec2Proof
